import Mathlib

/-!
Shallow embedding of the VisonicAlarm Home Assistant custom integration
(`custom_components/visonicalarm/alarm_control_panel.py` and
`custom_components/visonicalarm/sensor.py`) together with theorems that
settle the specification claims about it.

Python strings are `String`, Python `None` is `Option.none`, Python's
substring test `pat in s` is `pyIn pat s`, and the external hub is an
explicit input (its state string, readiness flag, device lookup result
and event list are parameters of the embedded functions).
-/

/-- Prefix test on character lists (`charsPre pat s` = `pat` starts `s`). -/
def charsPre : List Char → List Char → Bool
  | [], _ => true
  | _ :: _, [] => false
  | a :: as, b :: bs => a == b && charsPre as bs

/-- Substring test on character lists. -/
def charsSub : List Char → List Char → Bool
  | [], _ => true
  | _ :: _, [] => false
  | p :: ps, c :: cs => charsPre (p :: ps) (c :: cs) || charsSub (p :: ps) cs

/-- Python's `pat in s` substring containment on strings. -/
def pyIn (pat s : String) : Bool :=
  charsSub pat.toList s.toList

/-- The value set of Home Assistant's `AlarmControlPanelState` enum, the
"small fixed alarm-state enum" the integration maps vendor strings into. -/
def haAlarmStates : List String :=
  ["disarmed", "armed_home", "armed_away", "armed_night", "armed_vacation",
   "armed_custom_bypass", "pending", "arming", "disarming", "triggered"]

/-- A hub command the alarm panel entity can forward to the external client. -/
inductive HubCmd where
  | disarm
  | arm_home
  | arm_away
deriving BEq, DecidableEq, Repr

/-- Result of one arm/disarm service call on the panel entity: the title of
the persistent notification created (if any), the hub command invoked
(if any), and the cached panel state after the call. -/
structure CmdResult where
  notified : Option String
  hubCmd : Option HubCmd
  newState : String
deriving BEq, DecidableEq, Repr

namespace VisonicAlarm

/-- `VisonicAlarm.update` from `alarm_control_panel.py`: maps the vendor
status string from `hub.alarm.state` to the cached panel state. The final
`else` branch stores the vendor string verbatim. -/
def update (status : String) : String :=
  if status == "AWAY" then "armed_away"
  else if status == "HOME" then "armed_home"
  else if status == "DISARM" then "disarmed"
  else if status == "ARMING" then "arming"
  else if status == "ENTRYDELAY" then "pending"
  else if status == "ALARM" then "triggered"
  else status

/-- `VisonicAlarm.alarm_disarm`: `noPin` is `self._no_pin_required`,
`userCode` is `self._code`, `code` the service-call code, `hubStatus` the
status the hub reports when `update()` runs after the command, `prev` the
cached panel state before the call. The Python guard is
`self._no_pin_required == False`, i.e. the test `noPin == some false`. -/
def alarm_disarm (noPin : Option Bool) (userCode code : Option String)
    (hubStatus prev : String) : CmdResult :=
  if noPin == some false && !(code == userCode) then
    { notified := some "Disarm Failed", hubCmd := none, newState := prev }
  else
    { notified := none, hubCmd := some HubCmd.disarm, newState := update hubStatus }

/-- `VisonicAlarm.alarm_arm_home`: PIN branch as in `alarm_disarm`, then the
`hub.alarm.ready` gate before `arm_home()` is invoked. -/
def alarm_arm_home (noPin : Option Bool) (userCode code : Option String)
    (ready : Bool) (hubStatus prev : String) : CmdResult :=
  if noPin == some false && !(code == userCode) then
    { notified := some "Arm Failed", hubCmd := none, newState := prev }
  else if ready then
    { notified := none, hubCmd := some HubCmd.arm_home, newState := update hubStatus }
  else
    { notified := some "Arm Failed", hubCmd := none, newState := prev }

/-- `VisonicAlarm.alarm_arm_away`: same shape as `alarm_arm_home` with the
`Unable to Arm` notification title. -/
def alarm_arm_away (noPin : Option Bool) (userCode code : Option String)
    (ready : Bool) (hubStatus prev : String) : CmdResult :=
  if noPin == some false && !(code == userCode) then
    { notified := some "Unable to Arm", hubCmd := none, newState := prev }
  else if ready then
    { notified := none, hubCmd := some HubCmd.arm_away, newState := update hubStatus }
  else
    { notified := some "Unable to Arm", hubCmd := none, newState := prev }

end VisonicAlarm

/-- What the state-changed listener in `setup_platform`
(`alarm_control_panel.py`) did on one event: whether it queried the hub's
event log (`get_last_event`), the value it passed to `update_state` (if
any), and whether it updated the changed-by/changed-timestamp metadata. -/
structure ListenerResult where
  fetchedLog : Bool
  stateUpdated : Option String
  metadataUpdated : Bool
deriving BEq, DecidableEq, Repr

/-- `arm_event_listener` from `alarm_control_panel.py`. `entityId` is
`event.data['entity_id']`, `oldSt` the old state's state value, `newSt`
the new state (`none` when `new_state` is `None`). -/
def arm_event_listener (entityId : String) (oldSt : String)
    (newSt : Option String) : ListenerResult :=
  match newSt with
  | none => { fetchedLog := false, stateUpdated := none, metadataUpdated := false }
  | some s =>
    if s == "unknown" || s == "" then
      { fetchedLog := false, stateUpdated := none, metadataUpdated := false }
    else if entityId == "alarm_control_panel.visonic_alarm" && !(oldSt == s) then
      if s == "armed_home" || s == "armed_away" || s == "disarmed" then
        { fetchedLog := true, stateUpdated := some s, metadataUpdated := true }
      else
        { fetchedLog := false, stateUpdated := some s, metadataUpdated := false }
    else
      { fetchedLog := false, stateUpdated := none, metadataUpdated := false }

/-- Condition of claim C8, written from the spec's words: the event log is
queried exactly when the event concerns `alarm_control_panel.visonic_alarm`,
the new state is defined (present and not unknown/empty), differs from the
old state, and is one of armed_home/armed_away/disarmed. -/
def claimC8Cond (entityId : String) (oldSt : String) (newSt : Option String) : Bool :=
  match newSt with
  | none => false
  | some s =>
    !(s == "unknown") && !(s == "") &&
    entityId == "alarm_control_panel.visonic_alarm" && !(oldSt == s) &&
    (s == "armed_home" || s == "armed_away" || s == "disarmed")

/-- A vendor device record as read by `sensor.py` (`hub.alarm.devices` /
`get_device_by_id`): id, name, zone, device_type, subtype, state,
device_number. `subtype` and `state` may be `None`. -/
structure Device where
  id : Nat
  name : String
  zone : String
  device_type : String
  subtype : Option String
  state : Option String
  device_number : Nat
deriving BEq, DecidableEq, Repr

/-- One entry of the shared `KEYFOB_DICT`: the Python value list
`[device.name, device.id, last_time_used, last_operation]`. -/
structure KeyfobEntry where
  name : String
  id : Nat
  last_time_used : Option String
  last_operation : Option String
deriving BEq, DecidableEq, Repr

/-- The shared keyfob lookup, a Python dict in insertion order. -/
abbrev KfDict := List (String × KeyfobEntry)

/-- Python `dict.update({k: v})`: replace the value in place when the key
exists, otherwise append the new binding. -/
def dictInsert (d : KfDict) (k : String) (v : KeyfobEntry) : KfDict :=
  if d.any (fun p => p.1 == k) then
    d.map (fun p => if p.1 == k then (k, v) else p)
  else
    d ++ [(k, v)]

/-- One record of `hub.alarm.get_events(...)` as read by `setup_platform`:
the `appointment`, `datetime` and `description` fields. -/
structure Event where
  appointment : String
  datetime : String
  description : String
deriving BEq, DecidableEq, Repr

/-- The `for _event in events: ... break` loop of `setup_platform`
(`sensor.py`): the datetime and description of the first event whose
lowercased appointment equals `user`, both `None` when no event matches. -/
def findKeyfobEvent (user : String) : List Event → Option String × Option String
  | [] => (none, none)
  | e :: rest =>
    if user == e.appointment.toLower then (some e.datetime, some e.description)
    else findKeyfobEvent user rest

/-- The subtype filter of `setup_platform` (`sensor.py`). -/
def sensorEligible (s : String) : Bool :=
  pyIn "CONTACT" s || pyIn "MOTION" s || pyIn "CURTAIN" s || pyIn "KEYFOB" s

/-- The `user {device_number}` key synthesized for a keyfob device. -/
def keyfobKey (d : Device) : String :=
  "user " ++ toString d.device_number

/-- The device loop of `setup_platform` (`sensor.py`): walks `hub.alarm.devices`
threading the keyfob dict, and returns the ids of the devices for which a
`VisonicAlarmContact` entity was registered together with the final dict. -/
def setupGo (events : List Event) : List (Option Device) → KfDict → List Nat × KfDict
  | [], kf => ([], kf)
  | od :: rest, kf =>
    match od with
    | none => setupGo events rest kf
    | some d =>
      match d.subtype with
      | none => setupGo events rest kf
      | some s =>
        if sensorEligible s then
          let kf' :=
            if pyIn "KEYFOB" s then
              let r := findKeyfobEvent (keyfobKey d) events
              dictInsert kf (keyfobKey d)
                { name := d.name, id := d.id, last_time_used := r.1,
                  last_operation := r.2 }
            else kf
          let rec_result := setupGo events rest kf'
          (d.id :: rec_result.1, rec_result.2)
        else
          setupGo events rest kf

/-- `setup_platform` from `sensor.py`: clears the shared keyfob dict
(`keyfobs.clear()`), then walks the device list registering entities and
rebuilding the dict. `prior` is the dict contents left by an earlier pass. -/
def setup_platform (devices : List (Option Device)) (events : List Event)
    (_prior : KfDict) : List Nat × KfDict :=
  setupGo events devices []

/-- Outcome of one `VisonicAlarmContact.update` poll: `ok` is a completed
poll; `ioError` is the logged-and-skipped `except OSError` path; `missingStatus`
is the `status is None` warning-and-return path; `typeError` / `keyError` are
uncaught Python exceptions (`None` subtype, missing keyfob dict key). -/
inductive PollOutcome where
  | ok
  | ioError
  | missingStatus
  | typeError
  | keyError
deriving BEq, DecidableEq, Repr

/-- The cached fields of a `VisonicAlarmContact` entity. All but `state`
start as `None`; `state` starts as `"unknown"`. -/
structure ContactFields where
  state : String
  zone : Option String
  name : Option String
  device_type : Option String
  subtype : Option String
  keyfob_number : Option Nat
  last_time_used : Option String
  last_operation : Option String
deriving BEq, DecidableEq, Repr

/-- A fresh `VisonicAlarmContact.__init__` field set. -/
def initContactFields : ContactFields :=
  { state := "unknown", zone := none, name := none, device_type := none,
    subtype := none, keyfob_number := none, last_time_used := none,
    last_operation := none }

namespace VisonicAlarmContact

/-- The CURTAIN/MOTION branch of `VisonicAlarmContact.update`: the new
sensor state from the alarm state and the device zone. -/
def motionState (alarmState zone : String) : String :=
  if alarmState == "DISARM" || alarmState == "ARMING" then
    if pyIn "24H" zone then "on" else "off"
  else if alarmState == "HOME" then
    if pyIn "INTERIOR" zone then "off" else "on"
  else if alarmState == "AWAY" || alarmState == "DISARMING" then "on"
  else "unknown"

/-- The trailing assignments of a successful poll
(`self._zone/_name/_device_type/_subtype = device...`). -/
def applyTail (d : Device) (sub : String) (f : ContactFields) : ContactFields :=
  { f with
    zone := some d.zone, name := some d.name,
    device_type := some d.device_type, subtype := some sub }

/-- Python `keyfobs[k]` on the assoc-list dict. -/
def lookupKf (kf : KfDict) (k : String) : Option KeyfobEntry :=
  match kf.find? (fun p => p.1 == k) with
  | some p => some p.2
  | none => none

/-- `VisonicAlarmContact.update` from `sensor.py`. `hubOk = false` means
`hub.update()` raised `OSError`; `deviceRes = Except.error ()` means
`get_device_by_id` raised `OSError`; `alarmState` is `self._alarm.state`;
`kf` the shared keyfob dict; `prev` the cached fields before the poll.
Returns the cached fields after the poll and the outcome taken. -/
def update (hubOk : Bool) (deviceRes : Except Unit Device) (alarmState : String)
    (kf : KfDict) (prev : ContactFields) : ContactFields × PollOutcome :=
  if hubOk then
    match deviceRes with
    | Except.error _ => (prev, PollOutcome.ioError)
    | Except.ok d =>
      match d.state with
      | none => (prev, PollOutcome.missingStatus)
      | some status =>
        match d.subtype with
        | none => (prev, PollOutcome.typeError)
        | some sub =>
          if pyIn "CURTAIN" sub || pyIn "MOTION" sub then
            (applyTail d sub { prev with state := motionState alarmState d.zone },
             PollOutcome.ok)
          else if pyIn "KEYFOB" sub then
            match lookupKf kf (keyfobKey d) with
            | none =>
              ({ prev with state := "closed", keyfob_number := some d.device_number },
               PollOutcome.keyError)
            | some entry =>
              (applyTail d sub
                 { prev with
                   state := "closed",
                   keyfob_number := some d.device_number,
                   last_time_used := entry.last_time_used,
                   last_operation := entry.last_operation },
               PollOutcome.ok)
          else if pyIn "CONTACT" sub then
            (applyTail d sub
               { prev with state := if status == "opened" then "open" else "closed" },
             PollOutcome.ok)
          else if status == "opened" then
            (applyTail d sub { prev with state := "open" }, PollOutcome.ok)
          else if status == "closed" then
            (applyTail d sub { prev with state := "closed" }, PollOutcome.ok)
          else
            (applyTail d sub { prev with state := "unknown" }, PollOutcome.ok)
  else (prev, PollOutcome.ioError)

/-- `VisonicAlarmContact.icon` from `sensor.py`. Python evaluates
`not self._zone and "24H" in self._zone` left to right: a `None` zone makes
`not self._zone` true and then `"24H" in None` raises `TypeError`; a string
zone `z` short-circuits unless `z` is empty, and then tests `"24H" in z`.
A `None` subtype reached by `"KEYFOB" in self._subtype` also raises.
`Except.error` is a raised exception; `Except.ok` the returned icon. -/
def icon (zone : Option String) (subtype : Option String) (state : String) :
    Except String (Option String) :=
  match zone with
  | none => Except.error "TypeError"
  | some z =>
    if (z == "") && pyIn "24H" z then
      Except.ok (some (if state == "closed" then "mdi:hours-24" else "mdi:alarm-light"))
    else
      match subtype with
      | none => Except.error "TypeError"
      | some sub =>
        if pyIn "KEYFOB" sub then Except.ok (some "mdi:key-outline")
        else if state == "closed" then Except.ok (some "mdi:door-closed")
        else if state == "open" then Except.ok (some "mdi:door-open")
        else if state == "off" then Except.ok (some "mdi:motion-sensor-off")
        else if state == "on" then Except.ok (some "mdi:motion-sensor")
        else Except.ok none

end VisonicAlarmContact

/-- True exactly on the two 24-hour-zone icons of `VisonicAlarmContact.icon`. -/
def is24hIcon : Except String (Option String) → Bool
  | Except.ok (some s) => s == "mdi:hours-24" || s == "mdi:alarm-light"
  | _ => false

/-- Claim C6's registration rule, written from the spec's words: one entity
per non-None device whose non-None subtype contains CONTACT, MOTION,
CURTAIN or KEYFOB as a substring, none for any other device. -/
def registeredIds (devices : List (Option Device)) : List Nat :=
  devices.filterMap fun od =>
    match od with
    | none => none
    | some d =>
      match d.subtype with
      | none => none
      | some s => if sensorEligible s then some d.id else none

/-- The keyfob devices of a device list: non-None devices whose non-None
subtype contains KEYFOB. -/
def keyfobDevices (devices : List (Option Device)) : List Device :=
  devices.filterMap fun od =>
    match od with
    | none => none
    | some d =>
      match d.subtype with
      | none => none
      | some s => if pyIn "KEYFOB" s then some d else none

/-- Claim C7's expected lookup entry for one keyfob device: key `user N`,
value the device name and id with the datetime and description of the
first event whose lowercased appointment equals the key. -/
def keyfobEntryOf (events : List Event) (d : Device) : String × KeyfobEntry :=
  (keyfobKey d,
   { name := d.name, id := d.id,
     last_time_used := (findKeyfobEvent (keyfobKey d) events).1,
     last_operation := (findKeyfobEvent (keyfobKey d) events).2 })

/-- Claim C1 as stated is false: with PIN validation required
(`no_pin_required = False`) and the supplied code equal to the configured
code, `alarm_arm_home` still forwards no hub command when the hub is not
ready, contradicting "when the supplied code equals the configured code,
the command is forwarded". -/
theorem C1_counterexample :
    ((some "1234" : Option String) == some "1234") = true ∧
    (VisonicAlarm.alarm_arm_home (some false) (some "1234") (some "1234")
      false "DISARM" "disarmed").hubCmd = none := by
  decide

/-- Claim C1, amended: with `no_pin_required = False`, a wrong code makes
all three commands create a notification, invoke no hub command and leave
the cached panel state unchanged; a matching code makes `alarm_disarm`
forward the disarm command unconditionally, while `alarm_arm_home` and
`alarm_arm_away` forward their command exactly when the hub is ready. -/
theorem C1_pin_gate_amended (u c : Option String) (hub prev : String) (ready : Bool) :
    ((c == u) = false →
      VisonicAlarm.alarm_disarm (some false) u c hub prev =
        { notified := some "Disarm Failed", hubCmd := none, newState := prev } ∧
      VisonicAlarm.alarm_arm_home (some false) u c ready hub prev =
        { notified := some "Arm Failed", hubCmd := none, newState := prev } ∧
      VisonicAlarm.alarm_arm_away (some false) u c ready hub prev =
        { notified := some "Unable to Arm", hubCmd := none, newState := prev }) ∧
    ((c == u) = true →
      (VisonicAlarm.alarm_disarm (some false) u c hub prev).hubCmd =
        some HubCmd.disarm ∧
      (VisonicAlarm.alarm_arm_home (some false) u c ready hub prev).hubCmd =
        (if ready then some HubCmd.arm_home else none) ∧
      (VisonicAlarm.alarm_arm_away (some false) u c ready hub prev).hubCmd =
        (if ready then some HubCmd.arm_away else none)) := by
  constructor
  · intro h
    simp [VisonicAlarm.alarm_disarm, VisonicAlarm.alarm_arm_home,
      VisonicAlarm.alarm_arm_away, h]
  · intro h
    cases ready <;>
      simp [VisonicAlarm.alarm_disarm, VisonicAlarm.alarm_arm_home,
        VisonicAlarm.alarm_arm_away, h]

/-- Witness for C1's amended theorem at concrete codes. -/
theorem C1_pin_gate_amended_witness :
    ((some "0000" : Option String) == some "1234") = false ∧
    VisonicAlarm.alarm_disarm (some false) (some "1234") (some "0000")
      "DISARM" "unknown" =
      { notified := some "Disarm Failed", hubCmd := none, newState := "unknown" } :=
  ⟨by decide,
   (((C1_pin_gate_amended (some "1234") (some "0000") "DISARM" "unknown" true).1
      (by decide)).1)⟩

/-- Claim C2: once the PIN branch does not abort, `alarm_arm_home` and
`alarm_arm_away` invoke their hub command exactly when the hub reports
ready, and when not ready they create a notification and send no command,
leaving the cached state unchanged; `alarm_disarm` is not gated on
readiness. -/
theorem C2_ready_gate (noPin : Option Bool) (u c : Option String)
    (hub prev : String) (ready : Bool)
    (h : (noPin == some false && !(c == u)) = false) :
    (VisonicAlarm.alarm_arm_home noPin u c ready hub prev).hubCmd =
      (if ready then some HubCmd.arm_home else none) ∧
    (ready = false →
      VisonicAlarm.alarm_arm_home noPin u c ready hub prev =
        { notified := some "Arm Failed", hubCmd := none, newState := prev }) ∧
    (VisonicAlarm.alarm_arm_away noPin u c ready hub prev).hubCmd =
      (if ready then some HubCmd.arm_away else none) ∧
    (ready = false →
      VisonicAlarm.alarm_arm_away noPin u c ready hub prev =
        { notified := some "Unable to Arm", hubCmd := none, newState := prev }) ∧
    (VisonicAlarm.alarm_disarm noPin u c hub prev).hubCmd = some HubCmd.disarm := by
  cases ready <;>
    simp [VisonicAlarm.alarm_disarm, VisonicAlarm.alarm_arm_home,
      VisonicAlarm.alarm_arm_away, h]

/-- Witness for C2 at a concrete not-ready call that passes the PIN check. -/
theorem C2_ready_gate_witness :
    (((some true : Option Bool) == some false) &&
      !((some "1234" : Option String) == some "1234")) = false ∧
    (VisonicAlarm.alarm_arm_home (some true) (some "1234") (some "1234")
      false "DISARM" "disarmed").hubCmd =
      (if false then some HubCmd.arm_home else none) :=
  ⟨by decide,
   (C2_ready_gate (some true) (some "1234") (some "1234") "DISARM" "disarmed"
     false (by decide)).1⟩

/-- Claim C3 as stated is false: `update` does not always produce a member
of the alarm-state enum; the vendor status `NOTREADY` falls through the
final `else` and is cached verbatim, which is not an enum value. -/
theorem C3_counterexample :
    VisonicAlarm.update "NOTREADY" = "NOTREADY" ∧
    haAlarmStates.contains "NOTREADY" = false := by
  decide

/-- Claim C3, amended: `update` maps the six known vendor strings per the
table AWAY → armed_away, HOME → armed_home, DISARM → disarmed,
ARMING → arming, ENTRYDELAY → pending, ALARM → triggered, and caches any
other vendor status string verbatim. -/
theorem C3_state_mapping_amended (s : String)
    (h : s ∉ ["AWAY", "HOME", "DISARM", "ARMING", "ENTRYDELAY", "ALARM"]) :
    VisonicAlarm.update "AWAY" = "armed_away" ∧
    VisonicAlarm.update "HOME" = "armed_home" ∧
    VisonicAlarm.update "DISARM" = "disarmed" ∧
    VisonicAlarm.update "ARMING" = "arming" ∧
    VisonicAlarm.update "ENTRYDELAY" = "pending" ∧
    VisonicAlarm.update "ALARM" = "triggered" ∧
    VisonicAlarm.update s = s := by
  simp only [List.mem_cons, List.not_mem_nil, or_false, not_or] at h
  obtain ⟨h1, h2, h3, h4, h5, h6⟩ := h
  refine ⟨by decide, by decide, by decide, by decide, by decide, by decide, ?_⟩
  simp [VisonicAlarm.update, h1, h2, h3, h4, h5, h6]

/-- Witness for C3's amended theorem at the vendor status `EXITDELAY`. -/
theorem C3_state_mapping_amended_witness :
    "EXITDELAY" ∉ ["AWAY", "HOME", "DISARM", "ARMING", "ENTRYDELAY", "ALARM"] ∧
    VisonicAlarm.update "EXITDELAY" = "EXITDELAY" :=
  ⟨by decide, (C3_state_mapping_amended "EXITDELAY" (by decide)).2.2.2.2.2.2⟩

/-- Claim C9 as stated is false: with the no-PIN-required config value
absent (`None`), `alarm_arm_away` still forwards no command when the hub
is not ready, contradicting "forward the command for any supplied code". -/
theorem C9_counterexample :
    (VisonicAlarm.alarm_arm_away none (some "1234") none
      false "DISARM" "disarmed").hubCmd = none := by
  decide

/-- Claim C9, amended: whenever the config value is not exactly `False`
(absent/`None` or `True`), the guard `no_pin_required == False` is false,
so all three commands ignore the supplied code entirely (the result is
identical for any two codes, including `None`): `alarm_disarm` always
forwards the disarm command and the arm commands forward exactly when the
hub is ready; PIN validation is enforced only when the value is exactly
`False`. -/
theorem C9_no_pin_amended (noPin : Option Bool)
    (h : (noPin == some false) = false) (u c c2 : Option String)
    (hub prev : String) (ready : Bool) :
    VisonicAlarm.alarm_disarm noPin u c hub prev =
      VisonicAlarm.alarm_disarm noPin u c2 hub prev ∧
    (VisonicAlarm.alarm_disarm noPin u c hub prev).hubCmd = some HubCmd.disarm ∧
    VisonicAlarm.alarm_arm_home noPin u c ready hub prev =
      VisonicAlarm.alarm_arm_home noPin u c2 ready hub prev ∧
    (VisonicAlarm.alarm_arm_home noPin u c ready hub prev).hubCmd =
      (if ready then some HubCmd.arm_home else none) ∧
    VisonicAlarm.alarm_arm_away noPin u c ready hub prev =
      VisonicAlarm.alarm_arm_away noPin u c2 ready hub prev ∧
    (VisonicAlarm.alarm_arm_away noPin u c ready hub prev).hubCmd =
      (if ready then some HubCmd.arm_away else none) := by
  cases ready <;>
    simp [VisonicAlarm.alarm_disarm, VisonicAlarm.alarm_arm_home,
      VisonicAlarm.alarm_arm_away, h]

/-- Witness for C9's amended theorem: config value absent, code `None`
versus a wrong code, ready hub. -/
theorem C9_no_pin_amended_witness :
    ((none : Option Bool) == some false) = false ∧
    (VisonicAlarm.alarm_disarm none (some "1234") none "DISARM" "unknown").hubCmd =
      some HubCmd.disarm :=
  ⟨by decide,
   (C9_no_pin_amended none (by decide) (some "1234") none (some "9999")
     "DISARM" "unknown" true).2.1⟩

/-- Claim C8: the state-changed listener queries the hub's event log and
updates the changed-by/changed-timestamp metadata exactly when the event
concerns `alarm_control_panel.visonic_alarm`, the new state is defined
(present and not unknown/empty) and differs from the old state, and the
new state is armed_home, armed_away or disarmed; for every other event
the event log is not queried. -/
theorem C8_listener_gate (e o : String) (n : Option String) :
    (arm_event_listener e o n).fetchedLog = claimC8Cond e o n ∧
    (arm_event_listener e o n).metadataUpdated = claimC8Cond e o n := by
  cases n with
  | none => simp [arm_event_listener, claimC8Cond]
  | some s =>
    cases h1 : (s == "unknown") <;> cases h2 : (s == "") <;>
      cases h3 : (e == "alarm_control_panel.visonic_alarm") <;>
      cases h4 : (o == s) <;> cases h5 : (s == "armed_home") <;>
      cases h6 : (s == "armed_away") <;> cases h7 : (s == "disarmed") <;>
      simp [arm_event_listener, claimC8Cond, h1, h2, h3, h4, h5, h6, h7]

/-- Claim C10: for any string-valued cached zone the first branch condition
of `icon` (`not self._zone and "24H" in self._zone`) is never satisfied, so
the two 24-hour icons are never produced; and with the zone still `None`
(as before the first successful poll) evaluating `icon` raises `TypeError`
instead of returning an icon. -/
theorem C10_icon_dead_branch :
    (∀ (z : String) (sub : Option String) (st : String),
      is24hIcon (VisonicAlarmContact.icon (some z) sub st) = false) ∧
    (∀ (sub : Option String) (st : String),
      VisonicAlarmContact.icon none sub st = Except.error "TypeError") := by
  constructor
  · intro z sub st
    have hz : ((z == "") && pyIn "24H" z) = false := by
      cases h : (z == "") with
      | false => simp
      | true =>
        have hz' : z = "" := by simpa using h
        subst hz'
        decide
    cases sub with
    | none => simp [VisonicAlarmContact.icon, hz, is24hIcon]
    | some s =>
      simp only [VisonicAlarmContact.icon, hz, Bool.false_eq_true, if_false]
      split
      · decide
      · split
        · decide
        · split
          · decide
          · split
            · decide
            · split
              · decide
              · decide
  · intro sub st
    rfl

/-- Claim C4: on a successful poll of a device whose subtype contains
CURTAIN or MOTION, the new sensor state follows the alarm-state/zone table
(DISARM or ARMING: on for a 24H zone else off; HOME: off for an INTERIOR
zone else on; AWAY or DISARMING: on; anything else: unknown); and for a
device whose subtype contains CONTACT (and is not in the curtain/motion or
keyfob classes), status `opened` yields open and any other status closed. -/
theorem C4_sensor_state (d : Device) (status sub aState : String)
    (kf : KfDict) (prev : ContactFields)
    (hst : d.state = some status) (hsub : d.subtype = some sub) :
    ((pyIn "CURTAIN" sub || pyIn "MOTION" sub) = true →
      (VisonicAlarmContact.update true (Except.ok d) aState kf prev).1.state =
        (if aState == "DISARM" || aState == "ARMING" then
          if pyIn "24H" d.zone then "on" else "off"
         else if aState == "HOME" then
          if pyIn "INTERIOR" d.zone then "off" else "on"
         else if aState == "AWAY" || aState == "DISARMING" then "on"
         else "unknown")) ∧
    ((pyIn "CURTAIN" sub || pyIn "MOTION" sub) = false →
      pyIn "KEYFOB" sub = false → pyIn "CONTACT" sub = true →
      (VisonicAlarmContact.update true (Except.ok d) aState kf prev).1.state =
        (if status == "opened" then "open" else "closed")) := by
  constructor
  · intro h
    simp [VisonicAlarmContact.update, hst, hsub, h,
      VisonicAlarmContact.applyTail, VisonicAlarmContact.motionState]
  · intro h1 h2 h3
    simp [VisonicAlarmContact.update, hst, hsub, h1, h2, h3,
      VisonicAlarmContact.applyTail]

/-- Witness for C4 at a concrete motion device polled in HOME mode with an
interior zone, and a concrete contact device with status `opened`. -/
theorem C4_sensor_state_witness :
    (pyIn "CURTAIN" "MOTION_CAMERA" || pyIn "MOTION" "MOTION_CAMERA") = true ∧
    (VisonicAlarmContact.update true
      (Except.ok ⟨2, "cam", "INTERIOR ZONE", "ZONE", some "MOTION_CAMERA",
        some "x", 9⟩) "HOME" [] initContactFields).1.state = "off" ∧
    (VisonicAlarmContact.update true
      (Except.ok ⟨3, "door", "PERIMETER", "ZONE", some "MC303V CONTACT",
        some "opened", 5⟩) "HOME" [] initContactFields).1.state = "open" := by
  refine ⟨by decide, ?_, ?_⟩
  · exact ((C4_sensor_state
      ⟨2, "cam", "INTERIOR ZONE", "ZONE", some "MOTION_CAMERA", some "x", 9⟩
      "x" "MOTION_CAMERA" "HOME" [] initContactFields rfl rfl).1
      (by decide)).trans (by decide)
  · exact ((C4_sensor_state
      ⟨3, "door", "PERIMETER", "ZONE", some "MC303V CONTACT", some "opened", 5⟩
      "opened" "MC303V CONTACT" "HOME" [] initContactFields rfl rfl).2
      (by decide) (by decide) (by decide)).trans (by decide)

/-- Claim C5 as stated is false in its "only error path" part: a poll of a
device whose status is `None` is also logged and skipped with every cached
field retained, without any `OSError` being raised. -/
theorem C5_counterexample :
    VisonicAlarmContact.update true
      (Except.ok ⟨3, "door", "PERIMETER", "ZONE", some "MC303V CONTACT",
        none, 5⟩) "DISARM" [] initContactFields =
      (initContactFields, PollOutcome.missingStatus) ∧
    (PollOutcome.missingStatus == PollOutcome.ioError) = false := by
  decide

/-- Claim C5, amended: an `OSError` from `hub.update()` or from the device
lookup is logged and the poll skipped with every cached field retaining its
prior value; in addition, a device whose status is `None` also has its poll
logged and skipped with every cached field retained (without an
`OSError`). -/
theorem C5_poll_error_paths_amended (dres : Except Unit Device) (d : Device)
    (aState : String) (kf : KfDict) (prev : ContactFields) :
    VisonicAlarmContact.update false dres aState kf prev =
      (prev, PollOutcome.ioError) ∧
    VisonicAlarmContact.update true (Except.error ()) aState kf prev =
      (prev, PollOutcome.ioError) ∧
    (d.state = none →
      VisonicAlarmContact.update true (Except.ok d) aState kf prev =
        (prev, PollOutcome.missingStatus)) := by
  refine ⟨rfl, rfl, ?_⟩
  intro h
  simp [VisonicAlarmContact.update, h]

/-- Witness for C5's amended theorem at a concrete device without status. -/
theorem C5_poll_error_paths_amended_witness :
    (⟨4, "kf", "Z", "ZONE", some "KEYFOB_1", none, 7⟩ : Device).state = none ∧
    VisonicAlarmContact.update true
      (Except.ok ⟨4, "kf", "Z", "ZONE", some "KEYFOB_1", none, 7⟩)
      "AWAY" [] initContactFields = (initContactFields, PollOutcome.missingStatus) :=
  ⟨rfl,
   (C5_poll_error_paths_amended (Except.error ())
     ⟨4, "kf", "Z", "ZONE", some "KEYFOB_1", none, 7⟩
     "AWAY" [] initContactFields).2.2 rfl⟩

/-- First component of `setupGo`: the registered ids do not depend on the
threaded keyfob dict and equal the claim's filter. -/
lemma setupGo_fst (events : List Event) (ds : List (Option Device)) :
    ∀ kf : KfDict, (setupGo events ds kf).1 = registeredIds ds := by
  induction ds with
  | nil => intro kf; rfl
  | cons od rest ih =>
    intro kf
    cases od with
    | none => simp [setupGo, registeredIds, List.filterMap_cons, ih]
    | some d =>
      cases hsub : d.subtype with
      | none => simp [setupGo, registeredIds, List.filterMap_cons, hsub, ih]
      | some s =>
        by_cases he : sensorEligible s = true
        · simp [setupGo, registeredIds, List.filterMap_cons, hsub, he, ih]
        · simp [setupGo, registeredIds, List.filterMap_cons, hsub, he, ih]

/-- Claim C6: a setup pass registers exactly one sensor entity for each
non-None device whose non-None subtype contains CONTACT, MOTION, CURTAIN
or KEYFOB as a substring, in device-list order, and none for any other
device. -/
theorem C6_setup_filter (devices : List (Option Device)) (events : List Event)
    (prior : KfDict) :
    (setup_platform devices events prior).1 = registeredIds devices :=
  setupGo_fst events devices []

/-- `dict.update` with a key absent from the dict appends the binding. -/
lemma dictInsert_fresh (kf : KfDict) (k : String) (v : KeyfobEntry)
    (h : ∀ p ∈ kf, (p.1 == k) = false) :
    dictInsert kf k v = kf ++ [(k, v)] := by
  unfold dictInsert
  have hany : kf.any (fun p => p.1 == k) = false := by
    simp only [List.any_eq_false]
    intro p hp
    simp [h p hp]
  simp [hany]

/-- Second component of `setupGo`: with pairwise-distinct keyfob keys, all
fresh relative to the starting dict, the walk appends one entry per keyfob
device in order. -/
lemma setupGo_snd (events : List Event) (ds : List (Option Device)) :
    ∀ kf : KfDict,
    ((keyfobDevices ds).map keyfobKey).Nodup →
    (∀ d ∈ keyfobDevices ds, ∀ p ∈ kf, (p.1 == keyfobKey d) = false) →
    (setupGo events ds kf).2 = kf ++ (keyfobDevices ds).map (keyfobEntryOf events) := by
  induction ds with
  | nil => intro kf _ _; simp [setupGo, keyfobDevices]
  | cons od rest ih =>
    intro kf hnd hfresh
    cases od with
    | none =>
      have hkd : keyfobDevices (none :: rest) = keyfobDevices rest := by
        simp [keyfobDevices, List.filterMap_cons]
      rw [hkd] at hnd hfresh ⊢
      exact ih kf hnd hfresh
    | some d =>
      cases hsub : d.subtype with
      | none =>
        have hkd : keyfobDevices (some d :: rest) = keyfobDevices rest := by
          simp [keyfobDevices, List.filterMap_cons, hsub]
        rw [hkd] at hnd hfresh ⊢
        simp only [setupGo, hsub]
        exact ih kf hnd hfresh
      | some s =>
        by_cases hk : pyIn "KEYFOB" s = true
        · have he : sensorEligible s = true := by
            simp [sensorEligible, hk]
          have hkd : keyfobDevices (some d :: rest) = d :: keyfobDevices rest := by
            simp [keyfobDevices, List.filterMap_cons, hsub, hk]
          rw [hkd] at hnd hfresh
          rw [List.map_cons, List.nodup_cons] at hnd
      
          obtain ⟨hnotin, hnd'⟩ := hnd
          have hfresh_d : ∀ p ∈ kf, (p.1 == keyfobKey d) = false :=
            fun p hp => hfresh d (List.mem_cons_self d _) p hp
          have hfresh' : ∀ d' ∈ keyfobDevices rest,
              ∀ p ∈ kf ++ [keyfobEntryOf events d], (p.1 == keyfobKey d') = false := by
            intro d' hd' p hp
            rcases List.mem_append.mp hp with hp | hp
            · exact hfresh d' (List.mem_cons_of_mem _ hd') p hp
            · have hpe : p = keyfobEntryOf events d := by simpa using hp
              subst hpe
              have hne : keyfobKey d ≠ keyfobKey d' := by
                intro hEq
                exact hnotin (hEq ▸ List.mem_map_of_mem keyfobKey hd')
              exact beq_eq_false_iff_ne.mpr hne
          simp only [setupGo, hsub, he, hk, if_true]
          rw [dictInsert_fresh kf (keyfobKey d) _ hfresh_d]
          rw [hkd, List.map_cons]
          have := ih (kf ++ [keyfobEntryOf events d]) hnd' hfresh'
          simpa [List.append_assoc] using this
        · have hkd : keyfobDevices (some d :: rest) = keyfobDevices rest := by
            simp [keyfobDevices, List.filterMap_cons, hsub, hk]
          rw [hkd] at hnd hfresh ⊢
          by_cases he : sensorEligible s = true
          · simp only [setupGo, hsub, he, hk, if_true, if_false]
            exact ih kf hnd hfresh
          · simp only [setupGo, hsub, he, if_false]
            exact ih kf hnd hfresh

/-- Claim C7: after a setup pass the shared keyfob lookup holds exactly one
entry per keyfob device (keys `user N` assumed pairwise distinct), keyed by
`user N` and carrying the device name, the device id, and the datetime and
description of the first event whose lowercased appointment equals the key
(both `None` when no event matches); the dict is cleared first, so the
result does not depend on what an earlier pass left behind. -/
theorem C7_keyfob_lookup (devices : List (Option Device)) (events : List Event)
    (prior prior2 : KfDict)
    (hnd : ((keyfobDevices devices).map keyfobKey).Nodup) :
    (setup_platform devices events prior).2 =
      (keyfobDevices devices).map (keyfobEntryOf events) ∧
    setup_platform devices events prior = setup_platform devices events prior2 := by
  refine ⟨?_, rfl⟩
  have h := setupGo_snd events devices [] hnd (by intro d hd p hp; cases hp)
  simpa using h

/-- Witness for C7 at a two-device list with one keyfob and one matching
event, starting from a stale dict entry. -/
theorem C7_keyfob_lookup_witness :
    ((keyfobDevices
        [some ⟨1, "kf one", "Z", "T", some "KEYFOB_1", some "x", 3⟩,
         some ⟨2, "door", "Z", "T", some "MC303V CONTACT", some "closed", 9⟩]).map
      keyfobKey).Nodup ∧
    (setup_platform
        [some ⟨1, "kf one", "Z", "T", some "KEYFOB_1", some "x", 3⟩,
         some ⟨2, "door", "Z", "T", some "MC303V CONTACT", some "closed", 9⟩]
        [⟨"User 3", "2024-01-01 10:00", "Disarm"⟩]
        [("stale", ⟨"old", 0, none, none⟩)]).2 =
      (keyfobDevices
        [some ⟨1, "kf one", "Z", "T", some "KEYFOB_1", some "x", 3⟩,
         some ⟨2, "door", "Z", "T", some "MC303V CONTACT", some "closed", 9⟩]).map
        (keyfobEntryOf [⟨"User 3", "2024-01-01 10:00", "Disarm"⟩]) :=
  ⟨by decide,
   (C7_keyfob_lookup
     [some ⟨1, "kf one", "Z", "T", some "KEYFOB_1", some "x", 3⟩,
      some ⟨2, "door", "Z", "T", some "MC303V CONTACT", some "closed", 9⟩]
     [⟨"User 3", "2024-01-01 10:00", "Disarm"⟩]
     [("stale", ⟨"old", 0, none, none⟩)] []
     (by decide)).1⟩
